/-
Verification of the HOTSPOT-KEYBOARD-MOUSE server core against its
specification.

The development shallowly embeds the Python sources under `src/server/` in
Lean 4:

* `src/server/smoother.py`  — `InputSmoother` (capacitor-style pointer
  smoother).  Python floats are modelled as exact rationals (`ℚ`): every
  arithmetic operation of the source (`+`, `-`, `*`, `/`, `abs`, `min`,
  `max`, comparisons) is translated verbatim.  The only float operation
  with an irrational result is `math.sqrt`, used for `speed` (the norm of
  the velocity) and for the charge magnitude.  Both are only ever
  *compared against positive constants* or *multiplied back into a
  product that cancels the square root*, so the model stores
  `speed_sq = speed²` and `dirv = direction · speed` (the velocity vector
  captured at the last direction update) and performs every comparison on
  squares; this is an exact bisimulation of the source on the reachable
  observables (outputs and branch decisions).
* `src/server/auth.py`       — `AuthManager`.
* `src/server/connection.py` — `ConnectionManager`.
* `src/server/network.py`    — `UDPInputListener` packet parsing/dispatch,
  modelled on the decoded text of a datagram.
* `src/server/uinput_device.py` — `VirtualMouse.click` /
  `VirtualKeyboard.key_event`, modelled as the list of `input_event`
  records they write.  `BUTTON_MAP` / `KEY_MAP` live in the repository's
  `config.py`, which is not part of the sources given, so the two tables
  are parameters of the model.

Time (`time.time()`) is modelled by passing the current instant as a
rational argument; the discharge loop's frames are scheduled one period
(`1/fps`) apart, as the source's wall-clock sleep aims to do.
-/
import Mathlib

set_option maxRecDepth 1000000

/-- Python's `int(x)` conversion: truncation toward zero.  For `x ≥ 0` this
is the floor, for `x < 0` it is `-⌊-x⌋` (the ceiling).  `Rat.floor` is used
directly so that the definition evaluates in the kernel. -/
def pyInt (q : ℚ) : ℤ := if q < 0 then -((-q).floor) else q.floor

theorem rat_floor_eq_intFloor (q : ℚ) : q.floor = ⌊q⌋ := by
  rw [Rat.floor_def', ← Rat.floor_def]

theorem pyInt_eq_ceil_or_floor (q : ℚ) :
    pyInt q = if q < 0 then ⌈q⌉ else ⌊q⌋ := by
  unfold pyInt
  rw [rat_floor_eq_intFloor, rat_floor_eq_intFloor, Int.floor_neg]
  simp

theorem pyInt_lb (q : ℚ) : -1 < q - pyInt q := by
  rw [pyInt_eq_ceil_or_floor]
  split
  · have h := Int.ceil_lt_add_one q
    linarith
  · have h := Int.floor_le q
    linarith

theorem pyInt_ub (q : ℚ) : q - pyInt q < 1 := by
  rw [pyInt_eq_ceil_or_floor]
  split
  · have h := Int.le_ceil q
    linarith
  · have h := Int.lt_floor_add_one q
    linarith

theorem pyInt_eq_zero (q : ℚ) (h1 : -1 < q) (h2 : q < 1) : pyInt q = 0 := by
  rw [pyInt_eq_ceil_or_floor]
  split
  · next hq =>
    have ha : ⌈q⌉ ≤ 0 := Int.ceil_le.mpr (by push_cast; linarith)
    have hb : (-1 : ℤ) < ⌈q⌉ := by
      by_contra hc
      push_neg at hc
      have hcq : (⌈q⌉ : ℚ) ≤ -1 := by exact_mod_cast hc
      linarith [Int.le_ceil q]
    omega
  · next hq =>
    have ha : 0 ≤ ⌊q⌋ := Int.le_floor.mpr (by push_cast at hq ⊢; linarith)
    have hb : ⌊q⌋ < 1 := by
      by_contra hc
      push_neg at hc
      have hcq : (1 : ℚ) ≤ (⌊q⌋ : ℚ) := by exact_mod_cast hc
      linarith [Int.floor_le q]
    omega

namespace InputSmoother

/-- Constructor parameters of `InputSmoother.__init__`
(`src/server/smoother.py:84`).  `smoothing_factor` and `velocity_decay`
are stored by the constructor but never read by `add_movement` or
`_discharge_loop`, so they are omitted. -/
structure Cfg where
  target_fps : ℚ
  discharge_rate : ℚ
  continuation_timeout : ℚ
deriving Repr

/-- The default construction used by the server:
`target_fps = 60`, `discharge_rate = 0.22`,
`continuation_timeout_ms = 80` (stored in seconds). -/
def defaultCfg : Cfg :=
  { target_fps := 60, discharge_rate := 0.22, continuation_timeout := 0.08 }

/-- The mutable state of an `InputSmoother`
(`src/server/smoother.py:116`-`147`).  `dirv_x, dirv_y` hold
`direction · speed` (the smoothed velocity captured at the last direction
update, or zero) and `speed_sq` holds `speed²`; see the header comment for
why this representation is exact. -/
structure State where
  charge_x : ℚ
  charge_y : ℚ
  subpixel_x : ℚ
  subpixel_y : ℚ
  velocity_x : ℚ
  velocity_y : ℚ
  dirv_x : ℚ
  dirv_y : ℚ
  speed_sq : ℚ
  last_input_time : ℚ
  is_active : Bool
deriving Repr

/-- The freshly constructed state: every scalar zero, inactive. -/
def initState : State :=
  { charge_x := 0, charge_y := 0, subpixel_x := 0, subpixel_y := 0
  , velocity_x := 0, velocity_y := 0, dirv_x := 0, dirv_y := 0
  , speed_sq := 0, last_input_time := 0, is_active := false }

/-- The frames-elapsed factor computed by `add_movement`
(`src/server/smoother.py:195`-`201`):
`interval = 1/fps`; `dt = now - last_input_time` when a previous input
exists (`last_input_time > 0`), else `interval`; `dt < 0.001` is clamped
back to `interval`; `frames = max(dt * fps, 1)`. -/
def frames_elapsed (cfg : Cfg) (now : ℚ) (s : State) : ℚ :=
  let interval := 1 / cfg.target_fps
  let dt0 := if s.last_input_time > 0 then now - s.last_input_time else interval
  let dt := if dt0 < 0.001 then interval else dt0
  max (dt * cfg.target_fps) 1

/-- `InputSmoother.add_movement(dx, dy)` (`src/server/smoother.py:169`-`232`),
called at wall-clock instant `now`.  Steps, in source order: add to charge;
compute the frames-elapsed factor and the instantaneous velocity
`(dx/frames, dy/frames)`; quick-turn reset when `dx·vx + dy·vy < 0`;
exponential-moving-average blend with `blend = 0.6`; update
direction/speed when the new speed exceeds `0.05`
(`speed > 0.05 ↔ speed² > 0.0025`); set `is_active` and
`last_input_time`. -/
def add_movement (cfg : Cfg) (now : ℚ) (dx dy : ℤ) (s : State) : State :=
  let charge_x := s.charge_x + dx
  let charge_y := s.charge_y + dy
  let frames := frames_elapsed cfg now s
  let new_vx := (dx : ℚ) / frames
  let new_vy := (dy : ℚ) / frames
  let vx0 := if (dx : ℚ) * s.velocity_x + (dy : ℚ) * s.velocity_y < 0 then 0 else s.velocity_x
  let vy0 := if (dx : ℚ) * s.velocity_x + (dy : ℚ) * s.velocity_y < 0 then 0 else s.velocity_y
  let blend : ℚ := 0.6
  let vx := vx0 * (1 - blend) + new_vx * blend
  let vy := vy0 * (1 - blend) + new_vy * blend
  let sq := vx ^ 2 + vy ^ 2
  if sq > 0.0025 then
    { s with charge_x := charge_x, charge_y := charge_y
           , velocity_x := vx, velocity_y := vy
           , dirv_x := vx, dirv_y := vy, speed_sq := sq
           , is_active := true, last_input_time := now }
  else
    { s with charge_x := charge_x, charge_y := charge_y
           , velocity_x := vx, velocity_y := vy
           , is_active := true, last_input_time := now }

/-- The state-update and raw (pre-sub-pixel) output of one iteration of
`InputSmoother._discharge_loop` (`src/server/smoother.py:251`-`323`),
evaluated at wall-clock instant `now`:

* state 1 (discharge) when the charge is nonzero: the adaptive rate is
  chosen by the charge magnitude (`mag > 10 ↔ mag² > 100`,
  `mag < 2 ↔ mag² < 4`), `out = charge · rate` is removed from the
  charge, and residues of magnitude `< 0.02` are flushed into `out`;
* state 2 (continuation) when the charge is zero, the smoother is active
  and `now - last_input_time < continuation_timeout`: the eased
  continuation speed is `speed · fade · 0.5` with `fade = (1-progress)²`;
  it is emitted in the stored direction when it exceeds `0.03`
  (`speed·fade·0.5 > 0.03 ↔ speed²·fade² > 0.0036`, and
  `direction · (speed·fade·0.5) = dirv · fade · 0.5`);
* state 3 (idle) when active and `now - last_input_time ≥` the timeout:
  `is_active`, `speed` and the velocity are cleared (clearing `speed`
  makes `direction · speed = 0`, so `dirv` is cleared with it). -/
def dischargeCore (cfg : Cfg) (now : ℚ) (s : State) : State × ℚ × ℚ :=
  let time_since_input := now - s.last_input_time
  if s.charge_x ≠ 0 ∨ s.charge_y ≠ 0 then
    let magSq := s.charge_x ^ 2 + s.charge_y ^ 2
    let rate :=
      if magSq > 10 ^ 2 then min (cfg.discharge_rate * 1.5) 0.27
      else if magSq < 2 ^ 2 then max (cfg.discharge_rate * 0.7) 0.12
      else cfg.discharge_rate
    let outX0 := s.charge_x * rate
    let outY0 := s.charge_y * rate
    let cX0 := s.charge_x - outX0
    let cY0 := s.charge_y - outY0
    let outX := if |cX0| < 0.02 then outX0 + cX0 else outX0
    let cX := if |cX0| < 0.02 then 0 else cX0
    let outY := if |cY0| < 0.02 then outY0 + cY0 else outY0
    let cY := if |cY0| < 0.02 then 0 else cY0
    ({ s with charge_x := cX, charge_y := cY }, outX, outY)
  else if s.is_active = true ∧ time_since_input < cfg.continuation_timeout then
    let progress := time_since_input / cfg.continuation_timeout
    let fade := (1 - progress) ^ 2
    if s.speed_sq * fade ^ 2 > 0.0036 then
      (s, s.dirv_x * fade * 0.5, s.dirv_y * fade * 0.5)
    else
      (s, 0, 0)
  else if s.is_active = true ∧ time_since_input ≥ cfg.continuation_timeout then
    ({ s with is_active := false, speed_sq := 0
            , velocity_x := 0, velocity_y := 0
            , dirv_x := 0, dirv_y := 0 }, 0, 0)
  else
    (s, 0, 0)

/-- One full iteration of the discharge loop
(`src/server/smoother.py:251`-`342`): the state logic of
`dischargeCore` followed by the sub-pixel accumulation, integer
extraction by truncation toward zero, and the conditional call to the
sink (`some (int_dx, int_dy)` models `self._inject_move(int_dx, int_dy)`;
`none` models no call). -/
def dischargeFrame (cfg : Cfg) (now : ℚ) (s : State) :
    State × Option (ℤ × ℤ) :=
  let c := dischargeCore cfg now s
  let sx := c.1.subpixel_x + c.2.1
  let sy := c.1.subpixel_y + c.2.2
  let int_dx := pyInt sx
  let int_dy := pyInt sy
  ({ c.1 with subpixel_x := sx - int_dx, subpixel_y := sy - int_dy },
   if int_dx ≠ 0 ∨ int_dy ≠ 0 then some (int_dx, int_dy) else none)

/-- Accumulated result of running the discharge loop for several frames. -/
structure RunResult where
  state : State
  total_x : ℤ
  total_y : ℤ
  calls : ℕ
deriving Repr

/-- Run `n` consecutive frames of the discharge loop, the first at instant
`now` and each following one period `1/fps` later, summing the integer
deltas handed to the sink and counting the sink calls. -/
def dischargeRun (cfg : Cfg) : ℕ → ℚ → State → RunResult
  | 0, _, s => { state := s, total_x := 0, total_y := 0, calls := 0 }
  | n + 1, now, s =>
    let r := dischargeFrame cfg now s
    let rest := dischargeRun cfg n (now + 1 / cfg.target_fps) r.1
    match r.2 with
    | none => rest
    | some iv =>
      { state := rest.state, total_x := iv.1 + rest.total_x
      , total_y := iv.2 + rest.total_y, calls := rest.calls + 1 }

end InputSmoother

namespace InputSmoother

/-- The sub-pixel fields of the post-frame state have the shape
`q - pyInt q` (accumulate, extract the truncated integer part, keep the
remainder). -/
theorem dischargeFrame_subpixel_x (cfg : Cfg) (now : ℚ) (s : State) :
    (dischargeFrame cfg now s).1.subpixel_x
      = ((dischargeCore cfg now s).1.subpixel_x + (dischargeCore cfg now s).2.1)
        - pyInt ((dischargeCore cfg now s).1.subpixel_x + (dischargeCore cfg now s).2.1) := rfl

theorem dischargeFrame_subpixel_y (cfg : Cfg) (now : ℚ) (s : State) :
    (dischargeFrame cfg now s).1.subpixel_y
      = ((dischargeCore cfg now s).1.subpixel_y + (dischargeCore cfg now s).2.2)
        - pyInt ((dischargeCore cfg now s).1.subpixel_y + (dischargeCore cfg now s).2.2) := rfl

end InputSmoother

/-- Claim C2: for every state of the `InputSmoother` (reachable or not) and
every discharge-loop iteration, after the sub-pixel extraction step at the
end of the frame both `subpixel_x` and `subpixel_y` lie in `[-1, 1)`: the
integer part extracted by truncation toward zero is removed, leaving only
a fractional remainder. -/
theorem claim_C2 (cfg : InputSmoother.Cfg) (now : ℚ) (s : InputSmoother.State) :
    (-1 ≤ (InputSmoother.dischargeFrame cfg now s).1.subpixel_x
      ∧ (InputSmoother.dischargeFrame cfg now s).1.subpixel_x < 1)
    ∧ (-1 ≤ (InputSmoother.dischargeFrame cfg now s).1.subpixel_y
      ∧ (InputSmoother.dischargeFrame cfg now s).1.subpixel_y < 1) := by
  rw [InputSmoother.dischargeFrame_subpixel_x, InputSmoother.dischargeFrame_subpixel_y]
  constructor
  · constructor
    · linarith [pyInt_lb ((InputSmoother.dischargeCore cfg now s).1.subpixel_x
        + (InputSmoother.dischargeCore cfg now s).2.1)]
    · exact pyInt_ub _
  · constructor
    · linarith [pyInt_lb ((InputSmoother.dischargeCore cfg now s).1.subpixel_y
        + (InputSmoother.dischargeCore cfg now s).2.2)]
    · exact pyInt_ub _

/-- Claim C4: whenever `add_movement(dx, dy)` arrives against the current
velocity (`dx·vx + dy·vy < 0`), the velocity is reset to zero before the
exponential-moving-average blend, so the post-call velocity is exactly
`0.6 · (dx/f, dy/f)` with `f` the frames-elapsed factor: no component of
the pre-reversal momentum survives. -/
theorem claim_C4 (cfg : InputSmoother.Cfg) (now : ℚ) (dx dy : ℤ)
    (s : InputSmoother.State)
    (h : (dx : ℚ) * s.velocity_x + (dy : ℚ) * s.velocity_y < 0) :
    (InputSmoother.add_movement cfg now dx dy s).velocity_x
        = 0.6 * ((dx : ℚ) / InputSmoother.frames_elapsed cfg now s)
    ∧ (InputSmoother.add_movement cfg now dx dy s).velocity_y
        = 0.6 * ((dy : ℚ) / InputSmoother.frames_elapsed cfg now s) := by
  unfold InputSmoother.add_movement
  simp only [if_pos h]
  split
  · constructor <;> (simp only []; ring)
  · constructor <;> (simp only []; ring)

/-- Concrete state for the claim C4 witness: unit rightward velocity. -/
def c4state : InputSmoother.State := { InputSmoother.initState with velocity_x := 1 }

theorem claim_C4_witness :
    (((-1 : ℤ) : ℚ) * c4state.velocity_x + ((0 : ℤ) : ℚ) * c4state.velocity_y < 0)
    ∧ (InputSmoother.add_movement InputSmoother.defaultCfg 1 (-1) 0 c4state).velocity_x
        = 0.6 * (((-1 : ℤ) : ℚ) / InputSmoother.frames_elapsed InputSmoother.defaultCfg 1 c4state)
    ∧ (InputSmoother.add_movement InputSmoother.defaultCfg 1 (-1) 0 c4state).velocity_y
        = 0.6 * (((0 : ℤ) : ℚ) / InputSmoother.frames_elapsed InputSmoother.defaultCfg 1 c4state) :=
  ⟨by with_unfolding_all decide,
   (claim_C4 InputSmoother.defaultCfg 1 (-1) 0 c4state (by with_unfolding_all decide)).1,
   (claim_C4 InputSmoother.defaultCfg 1 (-1) 0 c4state (by with_unfolding_all decide)).2⟩

/-- Claim C1: from the fresh default smoother (`fps = 60`,
`discharge_rate = 0.22`), a single `add_movement(100, 0)` (here at instant
`1`) followed by discharge frames one period apart: the first frame emits
exactly `(27, 0)` (magnitude `100 > 10` selects
`rate = min(0.22·1.5, 0.27) = 0.27`, and `100 · 0.27 = 27` leaves zero
sub-pixel residue), and the total integer x-output over the following two
seconds (120 frames) equals `100` to within `±1` (in fact exactly `100`,
with zero y-output). -/
theorem claim_C1 :
    ((InputSmoother.dischargeFrame InputSmoother.defaultCfg (1 + 1/60)
        (InputSmoother.add_movement InputSmoother.defaultCfg 1 100 0
          InputSmoother.initState)).2 = some (27, 0))
    ∧ ((InputSmoother.dischargeFrame InputSmoother.defaultCfg (1 + 1/60)
        (InputSmoother.add_movement InputSmoother.defaultCfg 1 100 0
          InputSmoother.initState)).1.subpixel_x = 0)
    ∧ ((InputSmoother.dischargeRun InputSmoother.defaultCfg 120 (1 + 1/60)
        (InputSmoother.add_movement InputSmoother.defaultCfg 1 100 0
          InputSmoother.initState)).total_x - 100).natAbs ≤ 1
    ∧ (InputSmoother.dischargeRun InputSmoother.defaultCfg 120 (1 + 1/60)
        (InputSmoother.add_movement InputSmoother.defaultCfg 1 100 0
          InputSmoother.initState)).total_x = 100
    ∧ (InputSmoother.dischargeRun InputSmoother.defaultCfg 120 (1 + 1/60)
        (InputSmoother.add_movement InputSmoother.defaultCfg 1 100 0
          InputSmoother.initState)).total_y = 0 := by
  with_unfolding_all decide

namespace InputSmoother

/-- An idle state (zero charge, inactive, fractional sub-pixel residue) is
a fixed point of the discharge loop: every later frame, at any instant,
leaves the state unchanged and makes no sink call. -/
theorem idle_fixed (cfg : Cfg) (now' : ℚ) (s : State)
    (hcx : s.charge_x = 0) (hcy : s.charge_y = 0) (ha : s.is_active = false)
    (hsx1 : -1 < s.subpixel_x) (hsx2 : s.subpixel_x < 1)
    (hsy1 : -1 < s.subpixel_y) (hsy2 : s.subpixel_y < 1) :
    dischargeFrame cfg now' s = (s, none) := by
  have hcore : dischargeCore cfg now' s = (s, 0, 0) := by
    simp [dischargeCore, hcx, hcy, ha]
  simp [dischargeFrame, hcore, pyInt_eq_zero s.subpixel_x hsx1 hsx2,
        pyInt_eq_zero s.subpixel_y hsy1 hsy2]

/-- Iterating the discharge loop from an idle state produces no sink call
and no movement, for any number of frames. -/
theorem idle_run (cfg : Cfg) (n : ℕ) (now' : ℚ) (s : State)
    (hcx : s.charge_x = 0) (hcy : s.charge_y = 0) (ha : s.is_active = false)
    (hsx1 : -1 < s.subpixel_x) (hsx2 : s.subpixel_x < 1)
    (hsy1 : -1 < s.subpixel_y) (hsy2 : s.subpixel_y < 1) :
    dischargeRun cfg n now' s
      = { state := s, total_x := 0, total_y := 0, calls := 0 } := by
  induction n generalizing now' with
  | zero => rfl
  | succ n ih =>
    rw [dischargeRun, idle_fixed cfg now' s hcx hcy ha hsx1 hsx2 hsy1 hsy2]
    simpa using ih (now' + 1 / cfg.target_fps)

end InputSmoother

/-- Concrete state for the claim C3 counterexample and witness: charge
fully drained, a residual sub-pixel carry of `1/2`, still marked active,
last input at instant `1`. -/
def c3state : InputSmoother.State :=
  { charge_x := 0, charge_y := 0, subpixel_x := 1/2, subpixel_y := 0
  , velocity_x := 3, velocity_y := 0, dirv_x := 3, dirv_y := 0
  , speed_sq := 9, last_input_time := 1, is_active := true }

/-- Counterexample to claim C3 as stated: with the default configuration,
a state that has been idle for `1 s` (far beyond
`continuation_timeout + 1 frame = 0.08 + 1/60`) but still carries a
sub-pixel residue of `1/2` keeps that residue forever: the next frame and
the 200 frames after it all leave `subpixel_x = 1/2 ≠ 0`.  The sub-pixel
carry does not tend to zero — it is frozen at its residual value. -/
theorem claim_C3_counterexample :
    c3state.charge_x = 0 ∧ c3state.charge_y = 0 ∧ c3state.is_active = true
    ∧ 2 - c3state.last_input_time
        ≥ InputSmoother.defaultCfg.continuation_timeout
          + 1 / InputSmoother.defaultCfg.target_fps
    ∧ (InputSmoother.dischargeFrame InputSmoother.defaultCfg 2 c3state).2 = none
    ∧ (InputSmoother.dischargeFrame InputSmoother.defaultCfg 2 c3state).1.subpixel_x = 1/2
    ∧ (InputSmoother.dischargeRun InputSmoother.defaultCfg 200 3
        (InputSmoother.dischargeFrame InputSmoother.defaultCfg 2 c3state).1).state.subpixel_x
        = 1/2
    ∧ ¬ ((1 : ℚ)/2 = 0) := by
  with_unfolding_all decide

/-- Claim C3, amended: once the charge has fully drained and no input has
arrived for at least `continuation_timeout`, the next discharge frame
clears `is_active`, the velocity and the speed, makes no sink call, and
leaves the (fractional) sub-pixel carry **unchanged** — it stays at its
residual value rather than tending to zero — and every subsequent
discharge frame, at any instant, produces no sink call and no state
change until new input arrives. -/
theorem claim_C3 (cfg : InputSmoother.Cfg) (s : InputSmoother.State) (now : ℚ)
    (hcx : s.charge_x = 0) (hcy : s.charge_y = 0) (ha : s.is_active = true)
    (ht : now - s.last_input_time ≥ cfg.continuation_timeout)
    (hsx1 : -1 < s.subpixel_x) (hsx2 : s.subpixel_x < 1)
    (hsy1 : -1 < s.subpixel_y) (hsy2 : s.subpixel_y < 1) :
    (InputSmoother.dischargeFrame cfg now s).2 = none
    ∧ (InputSmoother.dischargeFrame cfg now s).1.is_active = false
    ∧ (InputSmoother.dischargeFrame cfg now s).1.velocity_x = 0
    ∧ (InputSmoother.dischargeFrame cfg now s).1.velocity_y = 0
    ∧ (InputSmoother.dischargeFrame cfg now s).1.speed_sq = 0
    ∧ (InputSmoother.dischargeFrame cfg now s).1.charge_x = 0
    ∧ (InputSmoother.dischargeFrame cfg now s).1.charge_y = 0
    ∧ (InputSmoother.dischargeFrame cfg now s).1.subpixel_x = s.subpixel_x
    ∧ (InputSmoother.dischargeFrame cfg now s).1.subpixel_y = s.subpixel_y
    ∧ ∀ (n : ℕ) (now' : ℚ),
        InputSmoother.dischargeRun cfg n now' (InputSmoother.dischargeFrame cfg now s).1
          = { state := (InputSmoother.dischargeFrame cfg now s).1
            , total_x := 0, total_y := 0, calls := 0 } := by
  have hcore : InputSmoother.dischargeCore cfg now s
      = ({ s with
            is_active := false, speed_sq := 0,
            velocity_x := 0, velocity_y := 0,
            dirv_x := 0, dirv_y := 0 }, 0, 0) := by
    simp [InputSmoother.dischargeCore, hcx, hcy, ha, ht, not_lt.mpr ht]
  have hfr : InputSmoother.dischargeFrame cfg now s
      = ({ s with
            is_active := false, speed_sq := 0,
            velocity_x := 0, velocity_y := 0,
            dirv_x := 0, dirv_y := 0 }, none) := by
    simp [InputSmoother.dischargeFrame, hcore,
          pyInt_eq_zero s.subpixel_x hsx1 hsx2, pyInt_eq_zero s.subpixel_y hsy1 hsy2]
  rw [hfr]
  refine ⟨rfl, rfl, rfl, rfl, rfl, hcx, hcy, rfl, rfl, ?_⟩
  intro n now'
  exact InputSmoother.idle_run cfg n now' _ hcx hcy rfl hsx1 hsx2 hsy1 hsy2

theorem claim_C3_witness :
    (c3state.charge_x = 0 ∧ c3state.charge_y = 0 ∧ c3state.is_active = true
      ∧ 2 - c3state.last_input_time ≥ InputSmoother.defaultCfg.continuation_timeout
      ∧ -1 < c3state.subpixel_x ∧ c3state.subpixel_x < 1)
    ∧ (InputSmoother.dischargeFrame InputSmoother.defaultCfg 2 c3state).2 = none
    ∧ (InputSmoother.dischargeFrame InputSmoother.defaultCfg 2 c3state).1.is_active = false :=
  ⟨by with_unfolding_all decide,
   (claim_C3 InputSmoother.defaultCfg c3state 2
      (by with_unfolding_all decide) (by with_unfolding_all decide)
      (by with_unfolding_all decide) (by with_unfolding_all decide)
      (by with_unfolding_all decide) (by with_unfolding_all decide)
      (by with_unfolding_all decide) (by with_unfolding_all decide)).1,
   (claim_C3 InputSmoother.defaultCfg c3state 2
      (by with_unfolding_all decide) (by with_unfolding_all decide)
      (by with_unfolding_all decide) (by with_unfolding_all decide)
      (by with_unfolding_all decide) (by with_unfolding_all decide)
      (by with_unfolding_all decide) (by with_unfolding_all decide)).2.1⟩

namespace AuthManager

/-- The state of `AuthManager` (`src/server/auth.py:21`-`24`). -/
structure State where
  code : Option String
  generated_at : Option ℚ
  authenticated : Bool
deriving Repr, DecidableEq

/-- `AuthManager.__init__`: no code, no timestamp, not authenticated. -/
def initState : State :=
  { code := none, generated_at := none, authenticated := false }

/-- `AuthManager.generate_code` (`src/server/auth.py:26`-`31`) at instant
`now`.  The source draws `new_code` with `random.choices(string.digits,
k=AUTH_CODE_LENGTH)`; the drawn string is a parameter here, since the
claims do not depend on its distribution (`AUTH_CODE_LENGTH` lives in the
absent `config.py`).  The timestamp is recorded and the authenticated
flag cleared. -/
def generate_code (now : ℚ) (new_code : String) (_s : State) : State × String :=
  ({ code := some new_code, generated_at := some now, authenticated := false }, new_code)

/-- `AuthManager.validate_code` (`src/server/auth.py:33`-`56`) at instant
`now`, with `AUTH_TIMEOUT = timeout` (the constant lives in the absent
`config.py`; the spec default is 300 s).  Source order: missing code or
timestamp → false; elapsed time beyond the timeout → clear both and
return false; trimmed input equal to the code → set `authenticated`,
return true; otherwise false. -/
def validate_code (timeout : ℚ) (now : ℚ) (input_code : String) (s : State) :
    State × Bool :=
  match s.code, s.generated_at with
  | some c, some t =>
    if now - t > timeout then
      ({ s with code := none, generated_at := none }, false)
    else if input_code.trim = c then
      ({ s with authenticated := true }, true)
    else
      (s, false)
  | _, _ => (s, false)

end AuthManager

/-- Claim C6: `validate_code(s)` returns true iff a code was generated,
the elapsed time since generation is at most the timeout, and `s` trimmed
equals the stored code; on true it sets the authenticated flag; and when
the elapsed time exceeds the timeout it clears the stored code and the
generation timestamp and returns false. -/
theorem claim_C6 (timeout now : ℚ) (input : String) (s : AuthManager.State) :
    ((AuthManager.validate_code timeout now input s).2 = true
      ↔ ∃ c t, s.code = some c ∧ s.generated_at = some t
          ∧ now - t ≤ timeout ∧ input.trim = c)
    ∧ ((AuthManager.validate_code timeout now input s).2 = true →
        (AuthManager.validate_code timeout now input s).1.authenticated = true)
    ∧ (∀ c t, s.code = some c → s.generated_at = some t → now - t > timeout →
        (AuthManager.validate_code timeout now input s).1.code = none
        ∧ (AuthManager.validate_code timeout now input s).1.generated_at = none
        ∧ (AuthManager.validate_code timeout now input s).2 = false) := by
  obtain ⟨c0, t0, a0⟩ := s
  cases c0 with
  | none => simp [AuthManager.validate_code]
  | some c =>
    cases t0 with
    | none => simp [AuthManager.validate_code]
    | some t =>
      by_cases hexp : now - t > timeout
      · simp [AuthManager.validate_code, hexp]
        intro h
        exact False.elim (by linarith)
      · by_cases hm : input.trim = c
        · simp [AuthManager.validate_code, hexp, hm]
          linarith [not_lt.mp hexp]
        · simp [AuthManager.validate_code, hexp, hm]
          linarith [not_lt.mp hexp]

/-- Concrete auth state for C5 and C6: code `"123456"` generated at
instant `0`. -/
def c5auth : AuthManager.State :=
  (AuthManager.generate_code 0 "123456" AuthManager.initState).1

theorem claim_C6_witness :
    ((AuthManager.validate_code 300 1 " 123456 " c5auth).2 = true
      ∧ (AuthManager.validate_code 300 1 " 123456 " c5auth).1.authenticated = true)
    ∧ (c5auth.code = some "123456" ∧ c5auth.generated_at = some 0
      ∧ (301 : ℚ) - 0 > 300
      ∧ (AuthManager.validate_code 300 301 "123456" c5auth).1.code = none
      ∧ (AuthManager.validate_code 300 301 "123456" c5auth).1.generated_at = none
      ∧ (AuthManager.validate_code 300 301 "123456" c5auth).2 = false) :=
  ⟨⟨(claim_C6 300 1 " 123456 " c5auth).1.mpr
      ⟨"123456", 0, by with_unfolding_all decide, by with_unfolding_all decide,
        by with_unfolding_all decide, by with_unfolding_all decide⟩,
    (claim_C6 300 1 " 123456 " c5auth).2.1
      ((claim_C6 300 1 " 123456 " c5auth).1.mpr
        ⟨"123456", 0, by with_unfolding_all decide, by with_unfolding_all decide,
          by with_unfolding_all decide, by with_unfolding_all decide⟩)⟩,
   by
    refine ⟨by with_unfolding_all decide, by with_unfolding_all decide,
      by with_unfolding_all decide, ?_⟩
    exact (claim_C6 300 301 "123456" c5auth).2.2 "123456" 0
      (by with_unfolding_all decide) (by with_unfolding_all decide)
      (by with_unfolding_all decide)⟩

/-- Counterexample to claim C5 as stated: a successful validation does not
consume the code, so `validate` returns true **twice** (indeed arbitrarily
often) for the same `generate()` call while the code is unexpired: both
the validation at instant `1` and the re-validation at instant `2` of the
same code `"123456"` (timeout 300) return true. -/
theorem claim_C5_counterexample :
    (AuthManager.validate_code 300 1 "123456" c5auth).2 = true
    ∧ (AuthManager.validate_code 300 2 "123456"
        (AuthManager.validate_code 300 1 "123456" c5auth).1).2 = true := by
  with_unfolding_all decide

/-- Claim C5, amended: while the elapsed time stays within the timeout,
`validate` of the matching code returns true on **every** call, not at
most once: a successful validation leaves the stored code and generation
timestamp unchanged (only the authenticated flag is set), so an immediate
re-validation of the same code succeeds again.  True-at-most-once would
require the success path to consume the code, which
`AuthManager.validate_code` does not do. -/
theorem claim_C5 (timeout now now' : ℚ) (input : String)
    (s : AuthManager.State) (t : ℚ)
    (hgen : s.generated_at = some t)
    (hok : (AuthManager.validate_code timeout now input s).2 = true)
    (hfresh : now' - t ≤ timeout) :
    (AuthManager.validate_code timeout now input s).1.code = s.code
    ∧ (AuthManager.validate_code timeout now input s).1.generated_at = s.generated_at
    ∧ (AuthManager.validate_code timeout now' input
        (AuthManager.validate_code timeout now input s).1).2 = true := by
  obtain ⟨c0, t0, a0⟩ := s
  have hgen' : t0 = some t := hgen
  subst hgen'
  cases c0 with
  | none => simp [AuthManager.validate_code] at hok
  | some c =>
    by_cases hexp : now - t > timeout
    · simp [AuthManager.validate_code, hexp] at hok
    · by_cases hm : input.trim = c
      · simp [AuthManager.validate_code, hexp, hm, not_lt.mpr hfresh]
      · simp [AuthManager.validate_code, hexp, hm] at hok

theorem claim_C5_witness :
    (c5auth.generated_at = some 0
      ∧ (AuthManager.validate_code 300 1 "123456" c5auth).2 = true
      ∧ (2 : ℚ) - 0 ≤ 300)
    ∧ (AuthManager.validate_code 300 1 "123456" c5auth).1.code = c5auth.code
    ∧ (AuthManager.validate_code 300 2 "123456"
        (AuthManager.validate_code 300 1 "123456" c5auth).1).2 = true :=
  ⟨by with_unfolding_all decide,
   (claim_C5 300 1 2 "123456" c5auth 0 (by with_unfolding_all decide)
      (by with_unfolding_all decide) (by with_unfolding_all decide)).1,
   (claim_C5 300 1 2 "123456" c5auth 0 (by with_unfolding_all decide)
      (by with_unfolding_all decide) (by with_unfolding_all decide)).2.2⟩

namespace ConnectionManager

/-- The state of `ConnectionManager` (`src/server/connection.py:18`-`22`).
A TCP socket object is modelled by an opaque numeric identifier. -/
structure State where
  active_client_ip : Option String
  active_client_socket : Option ℕ
  connected : Bool
deriving Repr, DecidableEq

/-- `ConnectionManager.__init__`: no peer recorded, not connected. -/
def initState : State :=
  { active_client_ip := none, active_client_socket := none, connected := false }

/-- `ConnectionManager.try_connect` (`src/server/connection.py:24`-`38`):
reject (returning the state untouched and `false`) when a client is
already connected; otherwise record the peer and return `true`. -/
def try_connect (s : State) (client_ip : String) (client_socket : ℕ) :
    State × Bool :=
  if s.connected then (s, false)
  else
    ({ active_client_ip := some client_ip
     , active_client_socket := some client_socket
     , connected := true }, true)

/-- `ConnectionManager.is_authorized_client` (`src/server/connection.py:58`-`61`):
`connected and active_client_ip == client_ip`.  (When no client is
recorded, Python's `None == client_ip` is `False`, matching
`none == some ip`.) -/
def is_authorized_client (s : State) (client_ip : String) : Bool :=
  s.connected && (s.active_client_ip == some client_ip)

end ConnectionManager

/-- Claim C7: `try_connect(ip, sock)` returns true and records `(ip, sock)`
as the connected peer iff no client was connected before the call; when a
client is already connected it returns false and leaves the stored peer
IP, stored socket and connected flag exactly as they were. -/
theorem claim_C7 (s : ConnectionManager.State) (ip : String) (sock : ℕ) :
    ((ConnectionManager.try_connect s ip sock).2 = true ↔ s.connected = false)
    ∧ (s.connected = false →
        ConnectionManager.try_connect s ip sock
          = ({ active_client_ip := some ip
             , active_client_socket := some sock
             , connected := true }, true))
    ∧ (s.connected = true → ConnectionManager.try_connect s ip sock = (s, false)) := by
  cases hc : s.connected <;> simp [ConnectionManager.try_connect, hc]

/-- Concrete connection states for the C7 and C8 witnesses: `c7busy` is
the state after accepting peer `10.0.0.2` on socket `7`. -/
def c7busy : ConnectionManager.State :=
  (ConnectionManager.try_connect ConnectionManager.initState "10.0.0.2" 7).1

theorem claim_C7_witness :
    (ConnectionManager.initState.connected = false
      ∧ ConnectionManager.try_connect ConnectionManager.initState "10.0.0.2" 7
          = ({ active_client_ip := some "10.0.0.2"
             , active_client_socket := some 7
             , connected := true }, true))
    ∧ (c7busy.connected = true
      ∧ ConnectionManager.try_connect c7busy "10.0.0.9" 8 = (c7busy, false)) :=
  ⟨⟨by with_unfolding_all decide,
    (claim_C7 ConnectionManager.initState "10.0.0.2" 7).2.1
      (by with_unfolding_all decide)⟩,
   ⟨by with_unfolding_all decide,
    (claim_C7 c7busy "10.0.0.9" 8).2.2 (by with_unfolding_all decide)⟩⟩

/-- Claim C8: `is_authorized_client(ip)` is true iff a client is connected
and `ip` equals the stored peer IP; in particular, while connected with
peer `a`, every other IP `b ≠ a` is rejected. -/
theorem claim_C8 (s : ConnectionManager.State) (ip : String) :
    (ConnectionManager.is_authorized_client s ip = true
      ↔ s.connected = true ∧ s.active_client_ip = some ip)
    ∧ (∀ a b : String, s.active_client_ip = some a → b ≠ a →
        ConnectionManager.is_authorized_client s b = false) := by
  constructor
  · simp [ConnectionManager.is_authorized_client]
  · intro a b ha hne
    simp only [ConnectionManager.is_authorized_client, ha]
    simp only [Bool.and_eq_false_iff, beq_eq_false_iff_ne, ne_eq, Option.some.injEq]
    by_cases hc : s.connected = false
    · exact Or.inl hc
    · exact Or.inr fun h => hne h.symm

theorem claim_C8_witness :
    (c7busy.connected = true ∧ c7busy.active_client_ip = some "10.0.0.2"
      ∧ ConnectionManager.is_authorized_client c7busy "10.0.0.2" = true)
    ∧ (("10.0.0.9" : String) ≠ "10.0.0.2"
      ∧ ConnectionManager.is_authorized_client c7busy "10.0.0.9" = false) :=
  ⟨⟨by with_unfolding_all decide, by with_unfolding_all decide,
    (claim_C8 c7busy "10.0.0.2").1.mpr
      ⟨by with_unfolding_all decide, by with_unfolding_all decide⟩⟩,
   ⟨by with_unfolding_all decide,
    (claim_C8 c7busy "10.0.0.9").2 "10.0.0.2" "10.0.0.9"
      (by with_unfolding_all decide) (by with_unfolding_all decide)⟩⟩

namespace UDPInputListener

/-- Helper for Python's no-argument `str.split()`: scan the text, skipping
whitespace and collecting maximal nonempty runs of non-whitespace
characters.  `cur` is the (reversed) run being collected. -/
def splitWSAux : List Char → List Char → List (List Char)
  | [], cur => if cur.isEmpty then [] else [cur.reverse]
  | c :: rest, cur =>
    if c.isWhitespace then
      if cur.isEmpty then splitWSAux rest []
      else cur.reverse :: splitWSAux rest []
    else splitWSAux rest (c :: cur)

/-- Python `message.split()` (no separator): split on runs of whitespace,
dropping leading and trailing whitespace — which also makes the source's
preceding `.strip()` a no-op.  (`Char.isWhitespace` covers the ASCII
whitespace used by the wire protocol.) -/
def splitWS (message : List Char) : List (List Char) := splitWSAux message []

/-- Python `int(token)` on a whitespace-free token: an optional sign
followed by at least one digit; anything else raises `ValueError`
(modelled as `none`).  Digit-group underscores and non-ASCII digits,
which CPython also accepts, do not occur in the wire protocol and are not
modelled. -/
def digitsValAux (acc : ℕ) : List Char → ℕ
  | [] => acc
  | c :: rest => digitsValAux (acc * 10 + (c.toNat - '0'.toNat)) rest

def pyParseInt (tok : List Char) : Option ℤ :=
  match tok with
  | [] => none
  | '+' :: rest =>
    if rest ≠ [] ∧ rest.all Char.isDigit then some (digitsValAux 0 rest) else none
  | '-' :: rest =>
    if rest ≠ [] ∧ rest.all Char.isDigit then some (-(digitsValAux 0 rest : ℤ)) else none
  | l => if l.all Char.isDigit then some (digitsValAux 0 l) else none

/-- `UDPInputListener._parse_packet` (`src/server/network.py:46`-`59`),
acting on the text of the datagram after the UTF-8 lossy decode: split on
whitespace; require exactly three tokens; parse tokens 1 and 2 as signed
integers (a failure of either parse is the source's `ValueError`, caught
and turned into `None`); return the uppercased command with the two
values. -/
def parse_packet (message : List Char) : Option (List Char × ℤ × ℤ) :=
  match splitWS message with
  | [t0, t1, t2] =>
    match pyParseInt t1, pyParseInt t2 with
    | some v1, some v2 => some (t0.map Char.toUpper, v1, v2)
    | _, _ => none
  | _ => none

/-- The smoother callback selected by one iteration of
`UDPInputListener._listen_loop` for an authorized datagram. -/
inductive Action where
  | move (dx dy : ℤ)
  | scroll (v h : ℤ)
deriving Repr, DecidableEq

/-- The dispatch step of `UDPInputListener._listen_loop`
(`src/server/network.py:72`-`81`) for a datagram from an authorized
source: unparsable packets are dropped silently; `MOVE` dispatches to
`on_move` (the smoother's `add_movement`), `SCROLL` to `on_scroll`, and
any other verb invokes no callback. -/
def listen_step (message : List Char) : Option Action :=
  match parse_packet message with
  | none => none
  | some (cmd, v1, v2) =>
    if cmd = "MOVE".toList then some (Action.move v1 v2)
    else if cmd = "SCROLL".toList then some (Action.scroll v1 v2)
    else none

/-- A token list that is not exactly three tokens makes `parse_packet`
return `none`. -/
theorem parse_packet_not_three (message : List Char)
    (h : (splitWS message).length ≠ 3) : parse_packet message = none := by
  unfold parse_packet
  split
  · next heq => rw [heq] at h; exact absurd rfl h
  · rfl

/-- With exactly three tokens, `parse_packet` reduces to the integer
parses of the second and third token. -/
theorem parse_packet_three (message t0 t1 t2 : List Char)
    (hsp : splitWS message = [t0, t1, t2]) :
    parse_packet message =
      match pyParseInt t1, pyParseInt t2 with
      | some v1, some v2 => some (t0.map Char.toUpper, v1, v2)
      | _, _ => none := by
  unfold parse_packet
  rw [hsp]

end UDPInputListener

/-- Claim C9: for a datagram from an authorized source (acting on the
UTF-8-lossy-decoded text): when splitting on whitespace does not yield
exactly three tokens, or the second or third token does not parse as a
signed integer, no smoother callback is invoked (silent drop); otherwise
the first token is uppercased and `MOVE` dispatches to the movement
callback with the two integers, `SCROLL` dispatches to the scroll
callback, and any other verb invokes no callback. -/
theorem claim_C9 (message : List Char) :
    ((UDPInputListener.splitWS message).length ≠ 3 →
      UDPInputListener.listen_step message = none)
    ∧ (∀ t0 t1 t2, UDPInputListener.splitWS message = [t0, t1, t2] →
        ((UDPInputListener.pyParseInt t1 = none ∨ UDPInputListener.pyParseInt t2 = none) →
          UDPInputListener.listen_step message = none)
        ∧ (∀ v1 v2, UDPInputListener.pyParseInt t1 = some v1 →
            UDPInputListener.pyParseInt t2 = some v2 →
            UDPInputListener.listen_step message =
              (if t0.map Char.toUpper = "MOVE".toList then
                some (UDPInputListener.Action.move v1 v2)
               else if t0.map Char.toUpper = "SCROLL".toList then
                some (UDPInputListener.Action.scroll v1 v2)
               else none))) := by
  constructor
  · intro h
    unfold UDPInputListener.listen_step
    rw [UDPInputListener.parse_packet_not_three message h]
  · intro t0 t1 t2 hsp
    constructor
    · intro hnone
      unfold UDPInputListener.listen_step
      rw [UDPInputListener.parse_packet_three message t0 t1 t2 hsp]
      rcases hnone with h | h
      · rw [h]
      · cases hv1 : UDPInputListener.pyParseInt t1 <;> rw [h]
    · intro v1 v2 h1 h2
      unfold UDPInputListener.listen_step
      rw [UDPInputListener.parse_packet_three message t0 t1 t2 hsp, h1, h2]

theorem claim_C9_witness :
    ((UDPInputListener.splitWS ("MOVEX 1".toList)).length ≠ 3
      ∧ UDPInputListener.listen_step ("MOVEX 1".toList) = none)
    ∧ (UDPInputListener.splitWS ("move 10 -5".toList)
        = ["move".toList, "10".toList, "-5".toList]
      ∧ UDPInputListener.pyParseInt ("10".toList) = some 10
      ∧ UDPInputListener.pyParseInt ("-5".toList) = some (-5)
      ∧ UDPInputListener.listen_step ("move 10 -5".toList)
          = some (UDPInputListener.Action.move 10 (-5)))
    ∧ UDPInputListener.listen_step ("SCROLL 2 0".toList)
        = some (UDPInputListener.Action.scroll 2 0)
    ∧ UDPInputListener.listen_step ("MOVE ab 5".toList) = none
    ∧ UDPInputListener.listen_step ("JUMP 1 2".toList) = none :=
  ⟨⟨by with_unfolding_all decide,
    (claim_C9 ("MOVEX 1".toList)).1 (by with_unfolding_all decide)⟩,
   ⟨by with_unfolding_all decide, by with_unfolding_all decide,
    by with_unfolding_all decide,
    by
      rw [(claim_C9 ("move 10 -5".toList)).2 "move".toList "10".toList "-5".toList
        (by with_unfolding_all decide) |>.2 10 (-5)
        (by with_unfolding_all decide) (by with_unfolding_all decide)]
      with_unfolding_all decide⟩,
   by with_unfolding_all decide,
   (claim_C9 ("MOVE ab 5".toList)).2 "MOVE".toList "ab".toList "5".toList
      (by with_unfolding_all decide) |>.1
      (Or.inl (by with_unfolding_all decide)),
   by with_unfolding_all decide⟩

namespace Uinput

/-- Linux evdev event-type / code constants (the source imports them from
its `config` module; the numeric values are fixed by `linux/input.h`,
per spec §6). -/
def EV_SYN : ℕ := 0

def EV_KEY : ℕ := 1

def SYN_REPORT : ℕ := 0

/-- One `input_event` record as assembled by `UInputDevice._write_event`
(`src/server/uinput_device.py:75`-`90`); the two zeroed time words are
omitted (the kernel fills them). -/
structure InputEvent where
  ev_type : ℕ
  code : ℕ
  value : ℤ
deriving Repr, DecidableEq

/-- `UInputDevice._sync` (`src/server/uinput_device.py:92`-`94`). -/
def syn_event : InputEvent := { ev_type := EV_SYN, code := SYN_REPORT, value := 0 }

/-- `VirtualMouse.click` (`src/server/uinput_device.py:193`-`207`):
look the uppercased button name up in `BUTTON_MAP` (a parameter here —
the table lives in the absent `config.py`; the spec gives
`{LEFT, RIGHT, MIDDLE}`); an unknown name raises `ValueError`
(modelled as `none`); otherwise write one `EV_KEY` event whose value is
`1` exactly when the uppercased state is `"DOWN"` and `0` otherwise,
followed by a sync. -/
def click (BUTTON_MAP : String → Option ℕ) (button state : String) :
    Option (List InputEvent) :=
  match BUTTON_MAP button.toUpper with
  | none => none
  | some button_code =>
    let value : ℤ := if state.toUpper = "DOWN" then 1 else 0
    some [{ ev_type := EV_KEY, code := button_code, value := value }, syn_event]

/-- `VirtualKeyboard.key_event` (`src/server/uinput_device.py:229`-`243`):
identical shape, over `KEY_MAP`. -/
def key_event (KEY_MAP : String → Option ℕ) (key state : String) :
    Option (List InputEvent) :=
  match KEY_MAP key.toUpper with
  | none => none
  | some keycode =>
    let value : ℤ := if state.toUpper = "DOWN" then 1 else 0
    some [{ ev_type := EV_KEY, code := keycode, value := value }, syn_event]

end Uinput

/-- Claim C10: the sink itself does not validate the state argument — for
every known button (resp. key) name, `click` (resp. `key_event`) writes
an `EV_KEY` event whose value is `1` exactly when the state uppercases to
`"DOWN"` and `0` for every other state string (including strings that are
neither `"DOWN"` nor `"UP"`), followed by a sync; an unknown button or
key name raises `ValueError` (modelled `none`) instead of being silently
dropped. -/
theorem claim_C10 (BUTTON_MAP KEY_MAP : String → Option ℕ)
    (button key state : String) :
    (∀ bc, BUTTON_MAP button.toUpper = some bc →
      Uinput.click BUTTON_MAP button state
        = some [{ ev_type := Uinput.EV_KEY, code := bc
                , value := if state.toUpper = "DOWN" then 1 else 0 }
               , Uinput.syn_event]
      ∧ (state.toUpper ≠ "DOWN" →
          Uinput.click BUTTON_MAP button state
            = some [{ ev_type := Uinput.EV_KEY, code := bc, value := 0 }
                   , Uinput.syn_event]))
    ∧ (BUTTON_MAP button.toUpper = none →
        Uinput.click BUTTON_MAP button state = none)
    ∧ (∀ kc, KEY_MAP key.toUpper = some kc →
        Uinput.key_event KEY_MAP key state
          = some [{ ev_type := Uinput.EV_KEY, code := kc
                  , value := if state.toUpper = "DOWN" then 1 else 0 }
                 , Uinput.syn_event])
    ∧ (KEY_MAP key.toUpper = none →
        Uinput.key_event KEY_MAP key state = none) := by
  refine ⟨?_, ?_, ?_, ?_⟩
  · intro bc hb
    unfold Uinput.click
    rw [hb]
    refine ⟨rfl, ?_⟩
    intro hs
    rw [if_neg hs]
  · intro hb
    unfold Uinput.click
    rw [hb]
  · intro kc hk
    unfold Uinput.key_event
    rw [hk]
  · intro hk
    unfold Uinput.key_event
    rw [hk]

/-- The three-button table of the spec (`BTN_LEFT = 0x110`,
`BTN_RIGHT = 0x111`, `BTN_MIDDLE = 0x112`), used by the C10 witness. -/
def c10buttons : String → Option ℕ :=
  fun s => if s = "LEFT" then some 272
    else if s = "RIGHT" then some 273
    else if s = "MIDDLE" then some 274
    else none

/-- A one-entry keymap (`KEY_A = 30`), used by the C10 witness. -/
def c10keys : String → Option ℕ :=
  fun s => if s = "KEY_A" then some 30 else none

theorem claim_C10_witness :
    (c10buttons ("left".toUpper) = some 272
      ∧ ("weird".toUpper ≠ "DOWN")
      ∧ Uinput.click c10buttons "left" "weird"
          = some [{ ev_type := Uinput.EV_KEY, code := 272, value := 0 }
                 , Uinput.syn_event])
    ∧ (c10buttons ("BACK".toUpper) = none
      ∧ Uinput.click c10buttons "BACK" "DOWN" = none)
    ∧ (c10keys ("key_a".toUpper) = some 30
      ∧ Uinput.key_event c10keys "key_a" "down"
          = some [{ ev_type := Uinput.EV_KEY, code := 30, value := 1 }
                 , Uinput.syn_event]) :=
  ⟨⟨by with_unfolding_all decide, by with_unfolding_all decide,
    ((claim_C10 c10buttons c10keys "left" "key_a" "weird").1 272
        (by with_unfolding_all decide)).2 (by with_unfolding_all decide)⟩,
   ⟨by with_unfolding_all decide,
    (claim_C10 c10buttons c10keys "BACK" "key_a" "DOWN").2.1
      (by with_unfolding_all decide)⟩,
   ⟨by with_unfolding_all decide,
    by
      rw [(claim_C10 c10buttons c10keys "left" "key_a" "down").2.2.1 30
        (by with_unfolding_all decide)]
      with_unfolding_all decide⟩⟩
